import Mathlib

/-!
# Verification of the `audio` playback tracker (`play.go`)

Shallow embedding of `src/audio/play.go` from the `goari` repository.

The Go code issues a play command, subscribes to the "PlaybackStarted" /
"PlaybackFinished" event stream, and spawns one tracking goroutine that runs
two select loops (`PlaybackStartLoop`, then `PlaybackStopLoop`), closing the
handle's `startCh` and `stopCh` channels and setting its `err` field.

The embedding externalises the scheduler: each iteration of a select loop is
driven by one `SelInput` naming the branch the select took (the quit channel,
an event delivery on the subscription channel, or the phase timer firing).
The goroutine run is a pure function from the input trace to an ordered log
of the observable actions it performed (channel closes, error assignment,
subscription cancellation) together with a result: still suspended, panicked
on a type assertion, or returned.
-/

namespace Goari.Audio

/-- Dynamic type of an event value delivered on the subscription channel:
`started`/`finished` embed the concrete `*v2.PlaybackStarted` /
`*v2.PlaybackFinished` values (carrying `e.Playback.ID`); `otherPayload`
stands for any other dynamic type. -/
inductive Payload where
  | started (pid : String)
  | finished (pid : String)
  | otherPayload
deriving DecidableEq, Repr

/-- An ARI event as the tracking goroutine sees it: `tag` is what the
`GetType()` method reports, `payload` is the value's dynamic type. The two
are independent, as in Go, so `GetType()` can disagree with the dynamic
type. -/
structure Event where
  tag : String
  payload : Payload
deriving DecidableEq, Repr

/-- `v.GetType()` of the `ari.Event` interface: the event's type tag. -/
def Event.GetType (v : Event) : String := v.tag

/-- One resolved select iteration of a tracking loop: which branch the Go
`select` took. `ev none` is a nil event received on `s.C`. -/
inductive SelInput where
  | quit
  | ev (e : Option Event)
  | timeout
deriving DecidableEq, Repr

/-- The `timeoutErr` struct of `play.go`. -/
structure timeoutErr where
  msg : String
deriving DecidableEq, Repr

/-- `func (err timeoutErr) Error() string { return err.msg }` -/
def timeoutErr.Error (err : timeoutErr) : String := err.msg

/-- `func (err timeoutErr) Timeout() bool { return true }` -/
def timeoutErr.Timeout (_err : timeoutErr) : Bool := true

/-- Observable actions of the tracking goroutine, in program order:
closing `pb.startCh`, closing `pb.stopCh`, assigning `pb.err`, and the
(deferred) `s.Cancel()` releasing the event subscription. -/
inductive Action where
  | closeStart
  | closeStop
  | setErr (e : timeoutErr)
  | cancelSub
deriving DecidableEq, Repr

/-- Phase of the tracking state machine: inside `PlaybackStartLoop`
(awaiting start) or inside `PlaybackStopLoop` (playing). -/
inductive Phase where
  | awaitingStart
  | playing
deriving DecidableEq, Repr

/-- Result of running the goroutine on a finite input trace: still suspended
in a select (trace exhausted), panicked on a failed type assertion, or
returned with the final value of `pb.err`. -/
inductive RunResult where
  | running (ph : Phase)
  | panicked
  | finished (err : Option timeoutErr)
deriving DecidableEq, Repr

/-- The `PlaybackStopLoop` of the goroutine in `PlayAsync`, entered after
`close(pb.startCh)` and `defer close(pb.stopCh)` have run. Each `SelInput`
resolves one select. On return (and on panic) the deferred
`close(pb.stopCh)` and then the outer deferred `s.Cancel()` run, in that
order. -/
def runStopLoop (id : String) : List SelInput → List Action × RunResult
  | [] => ([], .running .playing)
  | .quit :: _ => ([.closeStop, .cancelSub], .finished none)
  | .ev none :: rest => runStopLoop id rest
  | .ev (some v) :: rest =>
      if v.GetType = "PlaybackFinished" then
        match v.payload with
        | .finished pid =>
            if pid ≠ id then runStopLoop id rest
            else ([.closeStop, .cancelSub], .finished none)
        | _ => ([.closeStop, .cancelSub], .panicked)
      else runStopLoop id rest
  | .timeout :: _ =>
      ([.setErr ⟨"Timeout waiting for stop of playback"⟩, .closeStop, .cancelSub],
       .finished (some ⟨"Timeout waiting for stop of playback"⟩))

/-- The `PlaybackStartLoop` of the goroutine in `PlayAsync`; the entry point
of the goroutine's body (after `defer s.Cancel()` is registered). On the
matching "PlaybackStarted" event it breaks out, runs `close(pb.startCh)`,
registers `defer close(pb.stopCh)` and continues as `runStopLoop`. On exits
taken inside this loop the only deferred call is `s.Cancel()`. -/
def runStartLoop (id : String) : List SelInput → List Action × RunResult
  | [] => ([], .running .awaitingStart)
  | .quit :: _ => ([.closeStart, .closeStop, .cancelSub], .finished none)
  | .ev none :: rest => runStartLoop id rest
  | .ev (some v) :: rest =>
      if v.GetType = "PlaybackStarted" then
        match v.payload with
        | .started pid =>
            if pid ≠ id then runStartLoop id rest
            else
              let r := runStopLoop id rest
              (Action.closeStart :: r.1, r.2)
        | _ => ([.cancelSub], .panicked)
      else if v.GetType = "PlaybackFinished" then
        match v.payload with
        | .finished pid =>
            if pid ≠ id then runStartLoop id rest
            else ([.closeStart, .closeStop, .cancelSub], .finished none)
        | _ => ([.cancelSub], .panicked)
      else runStartLoop id rest
  | .timeout :: _ =>
      ([.setErr ⟨"Timeout waiting for start of playback"⟩, .closeStart, .closeStop, .cancelSub],
       .finished (some ⟨"Timeout waiting for start of playback"⟩))

/-- Setup outcome of `PlayAsync` before the goroutine is spawned:
`p.Play(mediaURI)` and `h.Data()` each either fail with an opaque error or
succeed; on success `data.ID` is the playback identifier. -/
structure Setup where
  playErr : Option String
  dataErr : Option String
  dataID : String
deriving DecidableEq, Repr

/-- `PlayAsync`: subscribe, issue the play command, read the playback data,
and run the tracking goroutine on the given select trace. The action log
records the subscription release (`s.Cancel()`): on either setup failure it
is called once before returning the error and no goroutine action happens;
otherwise the log is the goroutine's log. -/
def PlayAsync (su : Setup) (inputs : List SelInput) :
    List Action × Except String RunResult :=
  match su.playErr with
  | some e => ([.cancelSub], .error e)
  | none =>
      match su.dataErr with
      | some e => ([.cancelSub], .error e)
      | none =>
          let r := runStartLoop su.dataID inputs
          (r.1, .ok r.2)

/-- Which branch of the select in `Play` fired first: the handle's stop
channel, or the caller's context. -/
inductive SyncWait where
  | stopFired
  | ctxDone
deriving DecidableEq, Repr

/-- Return value of `Play`, keeping the three source-level provenances of
the returned `error` apart: the setup error from `PlayAsync`, the context's
error from `ctx.Err()`, and the handle's terminal error from `pb.Err()`. -/
inductive PlayRet where
  | setupErr (e : String)
  | ctxErr (e : String)
  | pbErr (e : Option timeoutErr)
deriving DecidableEq, Repr

/-- Modelled from the spec: the Playback handle's `terminalError()` accessor
(`pb.Err()`); its defining file is not part of the sources. Per the spec it
returns the stored terminal error, valid once the stop signal has fired:
here, the error carried by a finished run. -/
def Playback.Err : RunResult → Option timeoutErr
  | .finished e => e
  | _ => none

/-- `Play`: call `PlayAsync`; on a setup error return it (its deferred
`pb.Cancel()` is never registered). Otherwise select on the stop channel
versus the caller's context, returning `ctx.Err()` or `pb.Err()`; the
deferred `pb.Cancel()` runs on both of those exits. The `Bool` records
whether `pb.Cancel()` was invoked. `Playback.StopCh` and `Playback.Cancel`
are modelled from the spec (their defining file is not in the sources):
`StopCh` exposes the stop signal awaited by the select, `Cancel` triggers
the quit signal idempotently. -/
def Play (su : Setup) (inputs : List SelInput) (wait : SyncWait)
    (ctxE : String) : Bool × PlayRet :=
  match PlayAsync su inputs with
  | (_, .error e) => (false, .setupErr e)
  | (_, .ok r) =>
      match wait with
      | .ctxDone => (true, .ctxErr ctxE)
      | .stopFired => (true, .pbErr (Playback.Err r))

/-- An input the `PlaybackStartLoop` skips with `continue`: a nil event, an
event with an unrecognised type tag, or a recognised tag whose payload
carries a non-matching playback identifier. -/
def ignoredInStart (id : String) : SelInput → Bool
  | .ev none => true
  | .ev (some v) =>
      if v.GetType = "PlaybackStarted" then
        match v.payload with
        | .started pid => pid ≠ id
        | _ => false
      else if v.GetType = "PlaybackFinished" then
        match v.payload with
        | .finished pid => pid ≠ id
        | _ => false
      else true
  | _ => false

/-- An input the `PlaybackStopLoop` skips with `continue`. -/
def ignoredInStop (id : String) : SelInput → Bool
  | .ev none => true
  | .ev (some v) =>
      if v.GetType = "PlaybackFinished" then
        match v.payload with
        | .finished pid => pid ≠ id
        | _ => false
      else true
  | _ => false

/-- `true` iff the first of the two channel-close actions occurring in the
log is `closeStart` (vacuously `true` when `closeStop` never occurs): the
stop channel is not closed before the start channel. -/
def stopNotBeforeStart : List Action → Bool
  | [] => true
  | .closeStop :: _ => false
  | .closeStart :: _ => true
  | _ :: rest => stopNotBeforeStart rest

/-- `true` iff `closeStart` occurs in the log strictly before an occurrence
of `closeStop`. -/
def startStrictlyBeforeStop : List Action → Bool
  | [] => false
  | .closeStop :: _ => false
  | .closeStart :: rest => rest.contains .closeStop
  | _ :: rest => startStrictlyBeforeStop rest
/-- `true` iff the run is still suspended in one of the two select loops. -/
def RunResult.isStillRunning : RunResult → Bool
  | .running _ => true
  | _ => false

/-- One select iteration annotated with readiness: which of the three
channels (`quitCh`, `s.C`, the phase timer) were ready to communicate when
the select committed, and which branch it took. `readyEv = some e` means the
subscription channel had event `e` (possibly nil) available. -/
structure SelStep where
  readyQuit : Bool
  readyEv : Option (Option Event)
  readyTimeout : Bool
  taken : SelInput
deriving DecidableEq, Repr

/-- Go select semantics: the taken branch must be one of the ready ones
(Go chooses uniformly at random among ready cases, so any ready branch may
be the one taken). -/
def SelStep.wf (s : SelStep) : Bool :=
  match s.taken with
  | .quit => s.readyQuit
  | .ev e => s.readyEv == some e
  | .timeout => s.readyTimeout

/-- The quoted claim, stated over annotated traces: at every suspension
point the tracking task reaches (i.e. after every consumed prefix on which
it is still running), if the cancellation channel is ready then the select
takes the cancellation branch in preference to the other ready branches. -/
def cancelPreemptsClaim : Prop :=
  ∀ (id : String) (tr : List SelStep), (∀ s ∈ tr, s.wf = true) →
    ∀ (i : Nat) (h : i < tr.length),
      ((runStartLoop id ((tr.take i).map SelStep.taken)).2).isStillRunning = true →
      (tr.get ⟨i, h⟩).readyQuit = true → (tr.get ⟨i, h⟩).taken = SelInput.quit

/-! ## Helper lemmas -/

/-- A skipped (`continue`) input leaves `PlaybackStopLoop` unchanged. -/
lemma runStopLoop_cons_ignored (id : String) (x : SelInput) (rest : List SelInput)
    (h : ignoredInStop id x = true) :
    runStopLoop id (x :: rest) = runStopLoop id rest := by
  cases x with
  | quit => simp [ignoredInStop] at h
  | timeout => simp [ignoredInStop] at h
  | ev e =>
    cases e with
    | none => rfl
    | some v =>
      obtain ⟨tag, p⟩ := v
      by_cases h2 : tag = "PlaybackFinished"
      · subst h2
        cases p with
        | finished pid =>
            simp [ignoredInStop, Event.GetType] at h
            simp [runStopLoop, Event.GetType, h]
        | started pid => simp [ignoredInStop, Event.GetType] at h
        | otherPayload => simp [ignoredInStop, Event.GetType] at h
      · simp [runStopLoop, Event.GetType, h2]

/-- A skipped (`continue`) input leaves `PlaybackStartLoop` unchanged. -/
lemma runStartLoop_cons_ignored (id : String) (x : SelInput) (rest : List SelInput)
    (h : ignoredInStart id x = true) :
    runStartLoop id (x :: rest) = runStartLoop id rest := by
  cases x with
  | quit => simp [ignoredInStart] at h
  | timeout => simp [ignoredInStart] at h
  | ev e =>
    cases e with
    | none => rfl
    | some v =>
      obtain ⟨tag, p⟩ := v
      by_cases h1 : tag = "PlaybackStarted"
      · subst h1
        cases p with
        | started pid =>
            simp [ignoredInStart, Event.GetType] at h
            simp [runStartLoop, Event.GetType, h]
        | finished pid => simp [ignoredInStart, Event.GetType] at h
        | otherPayload => simp [ignoredInStart, Event.GetType] at h
      · by_cases h2 : tag = "PlaybackFinished"
        · subst h2
          cases p with
          | finished pid =>
              simp [ignoredInStart, Event.GetType, h1] at h
              simp [runStartLoop, Event.GetType, h1, h]
          | started pid => simp [ignoredInStart, Event.GetType, h1] at h
          | otherPayload => simp [ignoredInStart, Event.GetType, h1] at h
        · simp [runStartLoop, Event.GetType, h1, h2]

/-- A prefix of skipped inputs leaves `PlaybackStopLoop` unchanged. -/
lemma runStopLoop_append_ignored (id : String) (tr rest : List SelInput)
    (h : ∀ x ∈ tr, ignoredInStop id x = true) :
    runStopLoop id (tr ++ rest) = runStopLoop id rest := by
  induction tr with
  | nil => rfl
  | cons x tr ih =>
      rw [List.cons_append, runStopLoop_cons_ignored id x _ (h x (by simp))]
      exact ih fun y hy => h y (by simp [hy])

/-- A prefix of skipped inputs leaves `PlaybackStartLoop` unchanged. -/
lemma runStartLoop_append_ignored (id : String) (tr rest : List SelInput)
    (h : ∀ x ∈ tr, ignoredInStart id x = true) :
    runStartLoop id (tr ++ rest) = runStartLoop id rest := by
  induction tr with
  | nil => rfl
  | cons x tr ih =>
      rw [List.cons_append, runStartLoop_cons_ignored id x _ (h x (by simp))]
      exact ih fun y hy => h y (by simp [hy])

/-- Exhaustive characterisation of a `PlaybackStopLoop` run: either still
suspended with an empty log, or exited with the stop channel closed and the
subscription released exactly once, with the stop-timeout error set exactly
on the timeout exit. -/
lemma runStopLoop_shapes (id : String) (inputs : List SelInput) :
    runStopLoop id inputs = ([], .running .playing) ∨
    runStopLoop id inputs = ([.closeStop, .cancelSub], .finished none) ∨
    runStopLoop id inputs = ([.closeStop, .cancelSub], .panicked) ∨
    runStopLoop id inputs =
      ([.setErr ⟨"Timeout waiting for stop of playback"⟩, .closeStop, .cancelSub],
       .finished (some ⟨"Timeout waiting for stop of playback"⟩)) := by
  induction inputs with
  | nil => exact Or.inl rfl
  | cons x rest ih =>
      cases x with
      | quit => exact Or.inr (Or.inl rfl)
      | timeout => exact Or.inr (Or.inr (Or.inr rfl))
      | ev e =>
        cases e with
        | none => exact ih
        | some v =>
          obtain ⟨tag, p⟩ := v
          by_cases h2 : tag = "PlaybackFinished"
          · subst h2
            cases p with
            | finished pid =>
                by_cases hid : pid = id
                · refine Or.inr (Or.inl ?_)
                  simp [runStopLoop, Event.GetType, hid]
                · have heq : runStopLoop id
                      (SelInput.ev (some ⟨"PlaybackFinished", .finished pid⟩) :: rest)
                      = runStopLoop id rest := by
                    simp [runStopLoop, Event.GetType, hid]
                  rw [heq]; exact ih
            | started pid =>
                refine Or.inr (Or.inr (Or.inl ?_))
                simp [runStopLoop, Event.GetType]
            | otherPayload =>
                refine Or.inr (Or.inr (Or.inl ?_))
                simp [runStopLoop, Event.GetType]
          · have heq : runStopLoop id (SelInput.ev (some ⟨tag, p⟩) :: rest)
                = runStopLoop id rest := by
              simp [runStopLoop, Event.GetType, h2]
            rw [heq]; exact ih

/-- Exhaustive characterisation of a full tracking-goroutine run
(`PlaybackStartLoop` then possibly `PlaybackStopLoop`): the seven possible
log/result shapes. -/
lemma runStartLoop_shapes (id : String) (inputs : List SelInput) :
    runStartLoop id inputs = ([], .running .awaitingStart) ∨
    runStartLoop id inputs = ([.closeStart], .running .playing) ∨
    runStartLoop id inputs = ([.closeStart, .closeStop, .cancelSub], .finished none) ∨
    runStartLoop id inputs = ([.cancelSub], .panicked) ∨
    runStartLoop id inputs = ([.closeStart, .closeStop, .cancelSub], .panicked) ∨
    runStartLoop id inputs =
      ([.setErr ⟨"Timeout waiting for start of playback"⟩, .closeStart, .closeStop, .cancelSub],
       .finished (some ⟨"Timeout waiting for start of playback"⟩)) ∨
    runStartLoop id inputs =
      ([.closeStart, .setErr ⟨"Timeout waiting for stop of playback"⟩, .closeStop, .cancelSub],
       .finished (some ⟨"Timeout waiting for stop of playback"⟩)) := by
  induction inputs with
  | nil => exact Or.inl rfl
  | cons x rest ih =>
      cases x with
      | quit => exact Or.inr (Or.inr (Or.inl rfl))
      | timeout => exact Or.inr (Or.inr (Or.inr (Or.inr (Or.inr (Or.inl rfl)))))
      | ev e =>
        cases e with
        | none => exact ih
        | some v =>
          obtain ⟨tag, p⟩ := v
          by_cases h1 : tag = "PlaybackStarted"
          · subst h1
            cases p with
            | started pid =>
                by_cases hid : pid = id
                · have hrun : runStartLoop id
                      (SelInput.ev (some ⟨"PlaybackStarted", .started pid⟩) :: rest)
                      = (Action.closeStart :: (runStopLoop id rest).1,
                         (runStopLoop id rest).2) := by
                    simp [runStartLoop, Event.GetType, hid]
                  rcases runStopLoop_shapes id rest with h | h | h | h <;>
                    rw [hrun, h]
                  · exact Or.inr (Or.inl rfl)
                  · exact Or.inr (Or.inr (Or.inl rfl))
                  · exact Or.inr (Or.inr (Or.inr (Or.inr (Or.inl rfl))))
                  · exact Or.inr (Or.inr (Or.inr (Or.inr (Or.inr (Or.inr rfl)))))
                · have heq : runStartLoop id
                      (SelInput.ev (some ⟨"PlaybackStarted", .started pid⟩) :: rest)
                      = runStartLoop id rest := by
                    simp [runStartLoop, Event.GetType, hid]
                  rw [heq]; exact ih
            | finished pid =>
                refine Or.inr (Or.inr (Or.inr (Or.inl ?_)))
                simp [runStartLoop, Event.GetType]
            | otherPayload =>
                refine Or.inr (Or.inr (Or.inr (Or.inl ?_)))
                simp [runStartLoop, Event.GetType]
          · by_cases h2 : tag = "PlaybackFinished"
            · subst h2
              cases p with
              | finished pid =>
                  by_cases hid : pid = id
                  · refine Or.inr (Or.inr (Or.inl ?_))
                    simp [runStartLoop, Event.GetType, h1, hid]
                  · have heq : runStartLoop id
                        (SelInput.ev (some ⟨"PlaybackFinished", .finished pid⟩) :: rest)
                        = runStartLoop id rest := by
                      simp [runStartLoop, Event.GetType, h1, hid]
                    rw [heq]; exact ih
              | started pid =>
                  refine Or.inr (Or.inr (Or.inr (Or.inl ?_)))
                  simp [runStartLoop, Event.GetType, h1]
              | otherPayload =>
                  refine Or.inr (Or.inr (Or.inr (Or.inl ?_)))
                  simp [runStartLoop, Event.GetType, h1]
            · have heq : runStartLoop id (SelInput.ev (some ⟨tag, p⟩) :: rest)
                  = runStartLoop id rest := by
                simp [runStartLoop, Event.GetType, h1, h2]
              rw [heq]; exact ih

/-- Every `PlaybackStopLoop` select either skips its input (`continue`) or
terminates the goroutine with an outcome independent of later inputs. -/
lemma runStopLoop_classify (id : String) (x : SelInput) :
    ignoredInStop id x = true ∨
    ∃ out : List Action × RunResult, out.2 ≠ RunResult.running .playing ∧
      ∀ rest, runStopLoop id (x :: rest) = out := by
  cases x with
  | quit => exact Or.inr ⟨_, by simp, fun rest => rfl⟩
  | timeout => exact Or.inr ⟨_, by simp, fun rest => rfl⟩
  | ev e =>
    cases e with
    | none => exact Or.inl rfl
    | some v =>
      obtain ⟨tag, p⟩ := v
      by_cases h2 : tag = "PlaybackFinished"
      · subst h2
        cases p with
        | finished pid =>
            by_cases hid : pid = id
            · refine Or.inr ⟨([.closeStop, .cancelSub], .finished none), by simp, fun rest => ?_⟩
              simp [runStopLoop, Event.GetType, hid]
            · exact Or.inl (by simp [ignoredInStop, Event.GetType, hid])
        | started pid =>
            refine Or.inr ⟨([.closeStop, .cancelSub], .panicked), by simp, fun rest => ?_⟩
            simp [runStopLoop, Event.GetType]
        | otherPayload =>
            refine Or.inr ⟨([.closeStop, .cancelSub], .panicked), by simp, fun rest => ?_⟩
            simp [runStopLoop, Event.GetType]
      · exact Or.inl (by simp [ignoredInStop, Event.GetType, h2])

/-- Every `PlaybackStartLoop` select either skips its input, breaks into the
`PlaybackStopLoop` (matching start event), or terminates the goroutine with
an outcome independent of later inputs. -/
lemma runStartLoop_classify (id : String) (x : SelInput) :
    ignoredInStart id x = true ∨
    (∀ rest, runStartLoop id (x :: rest)
        = (Action.closeStart :: (runStopLoop id rest).1, (runStopLoop id rest).2)) ∨
    ∃ out : List Action × RunResult,
      (out.2 ≠ RunResult.running .awaitingStart ∧ out.2 ≠ RunResult.running .playing) ∧
      ∀ rest, runStartLoop id (x :: rest) = out := by
  cases x with
  | quit => exact Or.inr (Or.inr ⟨_, ⟨by simp, by simp⟩, fun rest => rfl⟩)
  | timeout => exact Or.inr (Or.inr ⟨_, ⟨by simp, by simp⟩, fun rest => rfl⟩)
  | ev e =>
    cases e with
    | none => exact Or.inl rfl
    | some v =>
      obtain ⟨tag, p⟩ := v
      by_cases h1 : tag = "PlaybackStarted"
      · subst h1
        cases p with
        | started pid =>
            by_cases hid : pid = id
            · refine Or.inr (Or.inl fun rest => ?_)
              simp [runStartLoop, Event.GetType, hid]
            · exact Or.inl (by simp [ignoredInStart, Event.GetType, hid])
        | finished pid =>
            refine Or.inr (Or.inr ⟨([.cancelSub], .panicked), ⟨by simp, by simp⟩,
              fun rest => ?_⟩)
            simp [runStartLoop, Event.GetType]
        | otherPayload =>
            refine Or.inr (Or.inr ⟨([.cancelSub], .panicked), ⟨by simp, by simp⟩,
              fun rest => ?_⟩)
            simp [runStartLoop, Event.GetType]
      · by_cases h2 : tag = "PlaybackFinished"
        · subst h2
          cases p with
          | finished pid =>
              by_cases hid : pid = id
              · refine Or.inr (Or.inr ⟨([.closeStart, .closeStop, .cancelSub], .finished none),
                  ⟨by simp, by simp⟩, fun rest => ?_⟩)
                simp [runStartLoop, Event.GetType, h1, hid]
              · exact Or.inl (by simp [ignoredInStart, Event.GetType, h1, hid])
          | started pid =>
              refine Or.inr (Or.inr ⟨([.cancelSub], .panicked), ⟨by simp, by simp⟩,
                fun rest => ?_⟩)
              simp [runStartLoop, Event.GetType, h1]
          | otherPayload =>
              refine Or.inr (Or.inr ⟨([.cancelSub], .panicked), ⟨by simp, by simp⟩,
                fun rest => ?_⟩)
              simp [runStartLoop, Event.GetType, h1]
        · exact Or.inl (by simp [ignoredInStart, Event.GetType, h1, h2])

/-- If the `PlaybackStopLoop` is still suspended after a trace, appending
further inputs continues it as if from scratch. -/
lemma runStopLoop_running_append (id : String) (pre suf : List SelInput)
    (h : (runStopLoop id pre).2 = RunResult.running .playing) :
    runStopLoop id (pre ++ suf) = runStopLoop id suf := by
  induction pre with
  | nil => rfl
  | cons x pre ih =>
      rcases runStopLoop_classify id x with hx | ⟨out, hterm, hout⟩
      · rw [runStopLoop_cons_ignored id x _ hx] at h
        rw [List.cons_append, runStopLoop_cons_ignored id x _ hx]
        exact ih h
      · rw [hout pre] at h
        exact absurd h hterm

/-- If the goroutine is still suspended awaiting start after a trace,
appending further inputs continues it as if from scratch. -/
lemma runStartLoop_awaiting_append (id : String) (pre suf : List SelInput)
    (h : (runStartLoop id pre).2 = RunResult.running .awaitingStart) :
    runStartLoop id (pre ++ suf) = runStartLoop id suf := by
  induction pre with
  | nil => rfl
  | cons x pre ih =>
      rcases runStartLoop_classify id x with hx | hbrk | ⟨out, hterm, hout⟩
      · rw [runStartLoop_cons_ignored id x _ hx] at h
        rw [List.cons_append, runStartLoop_cons_ignored id x _ hx]
        exact ih h
      · rw [hbrk pre] at h
        rcases runStopLoop_shapes id pre with h' | h' | h' | h' <;> rw [h'] at h <;> simp at h
      · rw [hout pre] at h
        exact absurd h hterm.1

/-- If the goroutine is suspended in the playing phase after a trace,
appending further inputs continues the `PlaybackStopLoop` as if from
scratch, with the start channel already closed. -/
lemma runStartLoop_playing_append (id : String) (pre suf : List SelInput)
    (h : (runStartLoop id pre).2 = RunResult.running .playing) :
    runStartLoop id (pre ++ suf)
      = (Action.closeStart :: (runStopLoop id suf).1, (runStopLoop id suf).2) := by
  induction pre with
  | nil => simp [runStartLoop] at h
  | cons x pre ih =>
      rcases runStartLoop_classify id x with hx | hbrk | ⟨out, hterm, hout⟩
      · rw [runStartLoop_cons_ignored id x _ hx] at h
        rw [List.cons_append, runStartLoop_cons_ignored id x _ hx]
        exact ih h
      · rw [hbrk pre] at h
        rw [List.cons_append, hbrk (pre ++ suf),
          runStopLoop_running_append id pre suf h]
      · rw [hout pre] at h
        exact absurd h hterm.2

/-- Helper: the terminal error of a finished tracking run is one of the two
timeout errors of `play.go`. -/
lemma finished_err_cases (id : String) (inputs : List SelInput) (e : timeoutErr)
    (h : (runStartLoop id inputs).2 = RunResult.finished (some e)) :
    e = ⟨"Timeout waiting for start of playback"⟩ ∨
    e = ⟨"Timeout waiting for stop of playback"⟩ := by
  rcases runStartLoop_shapes id inputs with h' | h' | h' | h' | h' | h' | h' <;>
    rw [h'] at h <;> simp at h <;> simp [h]

/-! ## Claims -/

/-- Claim C1: for every event sequence in which a `PlaybackStarted` event
carrying the playback's own identifier arrives before the start-timeout
elapses, and a `PlaybackFinished` event carrying that identifier arrives
before the stop-timeout elapses, `Play` returns a nil error, and the start
channel is closed strictly before the stop channel is closed. -/
theorem C1_play_success (id : String) (tr1 tr2 rest : List SelInput) (ctxE : String)
    (h1 : ∀ x ∈ tr1, ignoredInStart id x = true)
    (h2 : ∀ x ∈ tr2, ignoredInStop id x = true) :
    (Play ⟨none, none, id⟩
        (tr1 ++ SelInput.ev (some ⟨"PlaybackStarted", .started id⟩)
          :: (tr2 ++ SelInput.ev (some ⟨"PlaybackFinished", .finished id⟩) :: rest))
        SyncWait.stopFired ctxE).2 = PlayRet.pbErr none ∧
    startStrictlyBeforeStop
      (runStartLoop id (tr1 ++ SelInput.ev (some ⟨"PlaybackStarted", .started id⟩)
          :: (tr2 ++ SelInput.ev (some ⟨"PlaybackFinished", .finished id⟩) :: rest))).1
      = true := by
  have e1 : runStartLoop id
      (tr1 ++ SelInput.ev (some ⟨"PlaybackStarted", .started id⟩)
        :: (tr2 ++ SelInput.ev (some ⟨"PlaybackFinished", .finished id⟩) :: rest))
      = ([.closeStart, .closeStop, .cancelSub], .finished none) := by
    rw [runStartLoop_append_ignored id tr1 _ h1]
    have hbrk : runStartLoop id
        (SelInput.ev (some ⟨"PlaybackStarted", .started id⟩)
          :: (tr2 ++ SelInput.ev (some ⟨"PlaybackFinished", .finished id⟩) :: rest))
        = (Action.closeStart ::
            (runStopLoop id (tr2 ++ SelInput.ev (some ⟨"PlaybackFinished", .finished id⟩) :: rest)).1,
           (runStopLoop id (tr2 ++ SelInput.ev (some ⟨"PlaybackFinished", .finished id⟩) :: rest)).2) := by
      simp [runStartLoop, Event.GetType]
    rw [hbrk, runStopLoop_append_ignored id tr2 _ h2]
    simp [runStopLoop, Event.GetType]
  constructor
  · show PlayRet.pbErr (Playback.Err (runStartLoop id _).2) = PlayRet.pbErr none
    rw [e1]
    rfl
  · rw [e1]
    rfl

/-- Witness for C1 at a concrete trace with interleaved ignored events. -/
theorem C1_play_success_witness :
    (Play ⟨none, none, "pb1"⟩
        ([SelInput.ev none, SelInput.ev (some ⟨"PlaybackStarted", .started "other"⟩)]
          ++ SelInput.ev (some ⟨"PlaybackStarted", .started "pb1"⟩)
          :: ([SelInput.ev (some ⟨"ChannelDtmfReceived", .otherPayload⟩)]
            ++ SelInput.ev (some ⟨"PlaybackFinished", .finished "pb1"⟩) :: []))
        SyncWait.stopFired "ctx").2 = PlayRet.pbErr none :=
  (C1_play_success "pb1"
    [SelInput.ev none, SelInput.ev (some ⟨"PlaybackStarted", .started "other"⟩)]
    [SelInput.ev (some ⟨"ChannelDtmfReceived", .otherPayload⟩)] [] "ctx"
    (by decide) (by decide)).1

/-- Claim C2: on every exit path of the tracking goroutine the stop channel
is never closed before the start channel; whenever the stop channel closes,
the start channel has closed strictly earlier in the action log. -/
theorem C2_stop_never_first (id : String) (inputs : List SelInput) :
    stopNotBeforeStart (runStartLoop id inputs).1 = true ∧
    ((runStartLoop id inputs).1.contains Action.closeStop = true →
      startStrictlyBeforeStop (runStartLoop id inputs).1 = true) := by
  rcases runStartLoop_shapes id inputs with h | h | h | h | h | h | h <;> rw [h] <;> decide

/-- Witness for C2 on the cancellation exit. -/
theorem C2_stop_never_first_witness :
    startStrictlyBeforeStop (runStartLoop "pb1" [SelInput.quit]).1 = true :=
  (C2_stop_never_first "pb1" [SelInput.quit]).2 (by decide)

/-- Claim C3: a sequence of only nil events, wrong-identifier events, or
events with unrecognised type tags keeps the tracking task in the
`AwaitingStart` phase; when the start-timeout then fires, the start-timeout
error is set and both signals close. -/
theorem C3_start_timeout (id : String) (tr rest : List SelInput)
    (h : ∀ x ∈ tr, ignoredInStart id x = true) :
    (runStartLoop id tr).2 = RunResult.running .awaitingStart ∧
    runStartLoop id (tr ++ SelInput.timeout :: rest)
      = ([.setErr ⟨"Timeout waiting for start of playback"⟩,
          .closeStart, .closeStop, .cancelSub],
         .finished (some ⟨"Timeout waiting for start of playback"⟩)) := by
  have e0 : runStartLoop id tr = ([], .running .awaitingStart) := by
    have := runStartLoop_append_ignored id tr [] h
    simpa using this
  refine ⟨by rw [e0], ?_⟩
  rw [runStartLoop_append_ignored id tr _ h]
  rfl

/-- Witness for C3 at a concrete all-ignored trace. -/
theorem C3_start_timeout_witness :
    runStartLoop "pb1"
        ([SelInput.ev (some ⟨"ChannelHangupRequest", .otherPayload⟩), SelInput.ev none]
          ++ SelInput.timeout :: [])
      = ([.setErr ⟨"Timeout waiting for start of playback"⟩,
          .closeStart, .closeStop, .cancelSub],
         .finished (some ⟨"Timeout waiting for start of playback"⟩)) :=
  (C3_start_timeout "pb1"
    [SelInput.ev (some ⟨"ChannelHangupRequest", .otherPayload⟩), SelInput.ev none] []
    (by decide)).2

/-- Claim C4: a matching `PlaybackFinished` event arriving during
`AwaitingStart`, before any matching `PlaybackStarted`, terminates the
tracking task with a nil terminal error and closes both channels. -/
theorem C4_finish_before_start (id : String) (tr rest : List SelInput)
    (h : ∀ x ∈ tr, ignoredInStart id x = true) :
    runStartLoop id (tr ++ SelInput.ev (some ⟨"PlaybackFinished", .finished id⟩) :: rest)
      = ([.closeStart, .closeStop, .cancelSub], .finished none) := by
  rw [runStartLoop_append_ignored id tr _ h]
  simp [runStartLoop, Event.GetType]

/-- Witness for C4 at a concrete trace. -/
theorem C4_finish_before_start_witness :
    runStartLoop "pb1"
        ([SelInput.ev none] ++ SelInput.ev (some ⟨"PlaybackFinished", .finished "pb1"⟩) :: [])
      = ([.closeStart, .closeStop, .cancelSub], .finished none) :=
  C4_finish_before_start "pb1" [SelInput.ev none] [] (by decide)

/-- Claim C5: the event subscription is released exactly once on every
execution of `PlayAsync`: once on every exit of the tracking goroutine, and
once before returning when the play command or the data retrieval fails, in
which case the error is returned without any goroutine action. -/
theorem C5_subscription_released (su : Setup) (inputs : List SelInput) :
    (PlayAsync su inputs).1.count Action.cancelSub ≤ 1 ∧
    (∀ e, su.playErr = some e →
      PlayAsync su inputs = ([Action.cancelSub], Except.error e)) ∧
    (∀ e, su.playErr = none → su.dataErr = some e →
      PlayAsync su inputs = ([Action.cancelSub], Except.error e)) ∧
    (∀ r, (PlayAsync su inputs).2 = Except.ok r → r.isStillRunning = false →
      (PlayAsync su inputs).1.count Action.cancelSub = 1) := by
  obtain ⟨pe, de, id⟩ := su
  cases pe with
  | some e =>
      refine ⟨Nat.le_refl _, fun e' he' => ?_, fun e' he' => ?_, fun r hr => ?_⟩
      · cases he'; rfl
      · simp at he'
      · simp [PlayAsync] at hr
  | none =>
    cases de with
    | some e =>
        refine ⟨Nat.le_refl _, fun e' he' => ?_, fun e' _ he' => ?_, fun r hr => ?_⟩
        · simp at he'
        · cases he'; rfl
        · simp [PlayAsync] at hr
    | none =>
        have hPA : PlayAsync ⟨none, none, id⟩ inputs
            = ((runStartLoop id inputs).1, Except.ok (runStartLoop id inputs).2) := rfl
        refine ⟨?_, fun e' he' => by simp at he', fun e' _ he' => by simp at he',
          fun r hr hrun => ?_⟩
        · rw [hPA]
          rcases runStartLoop_shapes id inputs with h | h | h | h | h | h | h <;>
            rw [h] <;> decide
        · rw [hPA] at hr ⊢
          simp at hr
          rcases runStartLoop_shapes id inputs with h | h | h | h | h | h | h <;>
            rw [h] at hr ⊢ <;>
              first
                | decide
                | (rw [← hr] at hrun; simp [RunResult.isStillRunning] at hrun)


/-- Witness for C5: a failed play command releases the subscription once and
returns the error; a completed goroutine run has released it exactly once. -/
theorem C5_subscription_released_witness :
    PlayAsync ⟨some "play failed", none, "pb1"⟩ []
      = ([Action.cancelSub], Except.error "play failed") ∧
    (PlayAsync ⟨none, none, "pb1"⟩ [SelInput.quit]).1.count Action.cancelSub = 1 :=
  ⟨(C5_subscription_released ⟨some "play failed", none, "pb1"⟩ []).2.1 "play failed" rfl,
   (C5_subscription_released ⟨none, none, "pb1"⟩ [SelInput.quit]).2.2.2
     (RunResult.finished none) rfl rfl⟩

/-- Claim C6: `Play` invokes the handle's cancellation on every exit path
taken after a handle exists; if the stop channel fires first it returns the
handle's stored terminal error (nil on success), and if the caller's context
is done first it returns the context's error instead. -/
theorem C6_play_sync (id : String) (inputs : List SelInput) (ctxE : String) :
    (Play ⟨none, none, id⟩ inputs SyncWait.stopFired ctxE).1 = true ∧
    Play ⟨none, none, id⟩ inputs SyncWait.ctxDone ctxE = (true, PlayRet.ctxErr ctxE) ∧
    (∀ e, (runStartLoop id inputs).2 = RunResult.finished e →
      (Play ⟨none, none, id⟩ inputs SyncWait.stopFired ctxE).2 = PlayRet.pbErr e) := by
  refine ⟨rfl, rfl, fun e he => ?_⟩
  show PlayRet.pbErr (Playback.Err (runStartLoop id inputs).2) = PlayRet.pbErr e
  rw [he]
  rfl

/-- Witness for C6 on the stop-timeout exit: `Play` reports the stored
stop-timeout error. -/
theorem C6_play_sync_witness :
    (Play ⟨none, none, "pb1"⟩
        [SelInput.ev (some ⟨"PlaybackStarted", .started "pb1"⟩), SelInput.timeout]
        SyncWait.stopFired "ctx").2
      = PlayRet.pbErr (some ⟨"Timeout waiting for stop of playback"⟩) :=
  (C6_play_sync "pb1"
    [SelInput.ev (some ⟨"PlaybackStarted", .started "pb1"⟩), SelInput.timeout] "ctx").2.2
    (some ⟨"Timeout waiting for stop of playback"⟩) rfl

/-- Claim C7: every terminal error produced by the tracking task is one of
the two timeout errors, and its `Timeout()` method returns `true`, so
timeouts are queryable by the caller rather than only by message string. -/
theorem C7_timeout_queryable (id : String) (inputs : List SelInput) (e : timeoutErr)
    (h : (runStartLoop id inputs).2 = RunResult.finished (some e)) :
    e.Timeout = true ∧
    (e.Error = "Timeout waiting for start of playback" ∨
     e.Error = "Timeout waiting for stop of playback") := by
  refine ⟨rfl, ?_⟩
  rcases finished_err_cases id inputs e h with h' | h' <;> rw [h'] <;>
    first
      | exact Or.inl rfl
      | exact Or.inr rfl

/-- Witness for C7 on the start-timeout error. -/
theorem C7_timeout_queryable_witness :
    timeoutErr.Timeout ⟨"Timeout waiting for start of playback"⟩ = true ∧
    (timeoutErr.Error ⟨"Timeout waiting for start of playback"⟩
        = "Timeout waiting for start of playback" ∨
     timeoutErr.Error ⟨"Timeout waiting for start of playback"⟩
        = "Timeout waiting for stop of playback") :=
  C7_timeout_queryable "pb1" [SelInput.timeout]
    ⟨"Timeout waiting for start of playback"⟩ rfl

/-- Claim C8: in every tracking-goroutine run each channel is closed at most
once, and on every run that exits through a terminal branch both the start
channel and the stop channel are closed exactly once. -/
theorem C8_close_exactly_once (id : String) (inputs : List SelInput) :
    (runStartLoop id inputs).1.count Action.closeStart ≤ 1 ∧
    (runStartLoop id inputs).1.count Action.closeStop ≤ 1 ∧
    (∀ e, (runStartLoop id inputs).2 = RunResult.finished e →
      (runStartLoop id inputs).1.count Action.closeStart = 1 ∧
      (runStartLoop id inputs).1.count Action.closeStop = 1) := by
  rcases runStartLoop_shapes id inputs with h | h | h | h | h | h | h <;> rw [h] <;>
    refine ⟨by decide, by decide, fun e he => ?_⟩ <;>
      first
        | exact ⟨by decide, by decide⟩
        | simp at he

/-- Witness for C8 on the finish-before-start exit. -/
theorem C8_close_exactly_once_witness :
    (runStartLoop "pb1" [SelInput.ev (some ⟨"PlaybackFinished", .finished "pb1"⟩)]).1.count
        Action.closeStart = 1 ∧
    (runStartLoop "pb1" [SelInput.ev (some ⟨"PlaybackFinished", .finished "pb1"⟩)]).1.count
        Action.closeStop = 1 :=
  (C8_close_exactly_once "pb1" [SelInput.ev (some ⟨"PlaybackFinished", .finished "pb1"⟩)]).2.2
    none rfl

/-- Claim C9, as stated, is false of the code: Go's `select` does not
prioritise the cancellation branch. A well-formed step whose quit channel is
ready may still take a simultaneously ready event branch. -/
theorem C9_counterexample : ¬ cancelPreemptsClaim := by
  intro hcl
  have h := hcl "pb1"
    [⟨true, some (some ⟨"PlaybackStarted", .started "pb1"⟩), false,
      SelInput.ev (some ⟨"PlaybackStarted", .started "pb1"⟩)⟩]
    (by decide) 0 (by decide) (by decide) (by decide)
  exact absurd h (by decide)

/-- Claim C9 (amended): cancellation is checked at every suspension point —
the quit channel is one of the raced select branches in both loops, and
whenever the select takes the cancellation branch at a suspension point the
task terminates immediately with no error, both channels closed once; but a
simultaneously ready event or timeout may be taken instead, since Go's
`select` chooses among ready branches without priority. -/
theorem C9_cancel_checked (id : String) (pre : List SelInput) (ph : Phase)
    (h : (runStartLoop id pre).2 = RunResult.running ph) :
    (runStartLoop id (pre ++ [SelInput.quit])).2 = RunResult.finished none ∧
    (runStartLoop id (pre ++ [SelInput.quit])).1.count Action.closeStart = 1 ∧
    (runStartLoop id (pre ++ [SelInput.quit])).1.count Action.closeStop = 1 := by
  cases ph with
  | awaitingStart =>
      rw [runStartLoop_awaiting_append id pre _ h]
      exact ⟨rfl, rfl, rfl⟩
  | playing =>
      rw [runStartLoop_playing_append id pre _ h]
      exact ⟨rfl, rfl, rfl⟩

/-- Witness for the amended C9: cancellation taken in the playing phase. -/
theorem C9_cancel_checked_witness :
    (runStartLoop "pb1"
        ([SelInput.ev (some ⟨"PlaybackStarted", .started "pb1"⟩)] ++ [SelInput.quit])).2
      = RunResult.finished none :=
  (C9_cancel_checked "pb1" [SelInput.ev (some ⟨"PlaybackStarted", .started "pb1"⟩)]
    Phase.playing rfl).1

/-- Claim C10: an event whose type tag reads `PlaybackStarted` (resp.
`PlaybackFinished`) but whose dynamic type is not the corresponding v2
payload makes the tracking goroutine panic on the unchecked type assertion
instead of ignoring the event: in the awaiting-start loop for both tags, and
in the playing loop for the `PlaybackFinished` tag. -/
theorem C10_type_assertion_panics (id : String) (p q : Payload) (rest : List SelInput)
    (hp : ∀ s, p ≠ Payload.started s) (hq : ∀ s, q ≠ Payload.finished s) :
    runStartLoop id (SelInput.ev (some ⟨"PlaybackStarted", p⟩) :: rest)
      = ([Action.cancelSub], RunResult.panicked) ∧
    runStartLoop id (SelInput.ev (some ⟨"PlaybackFinished", q⟩) :: rest)
      = ([Action.cancelSub], RunResult.panicked) ∧
    runStopLoop id (SelInput.ev (some ⟨"PlaybackFinished", q⟩) :: rest)
      = ([Action.closeStop, Action.cancelSub], RunResult.panicked) := by
  refine ⟨?_, ?_, ?_⟩
  · cases p with
    | started s => exact absurd rfl (hp s)
    | finished s => simp [runStartLoop, Event.GetType]
    | otherPayload => simp [runStartLoop, Event.GetType]
  · cases q with
    | finished s => exact absurd rfl (hq s)
    | started s => simp [runStartLoop, Event.GetType]
    | otherPayload => simp [runStartLoop, Event.GetType]
  · cases q with
    | finished s => exact absurd rfl (hq s)
    | started s => simp [runStopLoop, Event.GetType]
    | otherPayload => simp [runStopLoop, Event.GetType]

/-- Witness for C10: a lying `PlaybackStarted` tag over a finished payload
panics the awaiting-start loop. -/
theorem C10_type_assertion_panics_witness :
    runStartLoop "pb1" [SelInput.ev (some ⟨"PlaybackStarted", Payload.finished "z"⟩)]
      = ([Action.cancelSub], RunResult.panicked) :=
  (C10_type_assertion_panics "pb1" (Payload.finished "z") (Payload.started "z") []
    (fun _ h => Payload.noConfusion h) (fun _ h => Payload.noConfusion h)).1

end Goari.Audio
